import Mathlib

/-!
Verification development for the reference-browser decision-task scripts
(`automation/taskcluster/decision_task.py` and
`automation/taskcluster/lib/taskgraph.py`).

The Python code is shallowly embedded: strings are Lean `String`s, Python
dicts become structures or association lists, the wall clock and the
taskcluster slug generator become explicit oracles threaded through a
`World` state, printing and file writes become an effect trace, and
`raise ValueError` becomes `Except VariantError`.
-/

deriving instance DecidableEq for Except

namespace RefBrowser

/-! ### Python string primitives -/

/-- `startsWithL s p`: the char list `s` starts with `p`
(Python `s.startswith(p)` on the underlying characters). -/
def startsWithL : List Char → List Char → Bool
  | _, [] => true
  | [], _ :: _ => false
  | c :: cs, p :: ps => c == p && startsWithL cs ps

/-- `containsL s sub`: `sub` occurs as a contiguous substring of `s`
(Python `sub in s`). -/
def containsL : List Char → List Char → Bool
  | [], sub => sub.isEmpty
  | c :: t, sub => startsWithL (c :: t) sub || containsL t sub

/-- `endsWithL s suf`: `s` ends with `suf` (Python `s.endswith(suf)`). -/
def endsWithL (s suf : List Char) : Bool :=
  startsWithL s.reverse suf.reverse

/-- Python `sub in s` on strings. -/
def pyContains (s sub : String) : Bool := containsL s.data sub.data

/-- Python `s.endswith(suf)`. -/
def pyEndsWith (s suf : String) : Bool := endsWithL s.data suf.data

/-- Python `s.lower()` (the tokens in this program are ASCII). -/
def pyLower (s : String) : String := ⟨s.data.map Char.toLower⟩

/-- Python `s.capitalize()`: first character upper-cased, the rest
lower-cased. -/
def pyCapitalize (s : String) : String :=
  match s.data with
  | [] => ""
  | c :: rest => ⟨c.toUpper :: rest.map Char.toLower⟩

/-- Python `s[:n]` for `0 ≤ n`. -/
def strTake (s : String) (n : Nat) : String := ⟨s.data.take n⟩

/-- Python `len(s)`. -/
def strLen (s : String) : Nat := s.data.length

/-- Python `'{}'.format(x)` where `x` is a string-or-None environment
value: `None` renders as `"None"`. -/
def pyShow : Option String → String
  | none => "None"
  | some s => s

/-! ### The variant classifier (`_get_architecture_and_build_type_from_variant`) -/

/-- The payload of the `ValueError` raised by
`_get_architecture_and_build_type_from_variant`: the source formats the
message `Unsupported variant "..." . Found architecture, build_type: ...`
from exactly the lower-cased token and the two scan results, so the error
is embedded as that triple. -/
structure VariantError where
  variant : String
  found_architecture : Option String
  found_build_type : Option String
deriving DecidableEq, Repr

/-- `_get_architecture_and_build_type_from_variant` from
`decision_task.py`: lower-case the token, scan for an architecture
substring in priority order `aarch64 > x86 > arm`, scan the suffix for
`debug`/`release`, and raise `ValueError` when either is missing. -/
def _get_architecture_and_build_type_from_variant (variant0 : String) :
    Except VariantError (String × String) :=
  let variant := pyLower variant0
  let architecture : Option String :=
    if pyContains variant "aarch64" then some "aarch64"
    else if pyContains variant "x86" then some "x86"
    else if pyContains variant "arm" then some "arm"
    else none
  let build_type : Option String :=
    if pyEndsWith variant "debug" then some "debug"
    else if pyEndsWith variant "release" then some "release"
    else none
  match architecture, build_type with
  | some a, some b => .ok (a, b)
  | a, b => .error ⟨variant, a, b⟩

/-! ### Derived per-variant strings -/

/-- `_craft_treeherder_platform_from_variant`. -/
def _craft_treeherder_platform_from_variant (variant : String) :
    Except VariantError String :=
  match _get_architecture_and_build_type_from_variant variant with
  | .error e => .error e
  | .ok (architecture, build_type) =>
      .ok ("android-" ++ architecture ++ "-" ++ build_type)

/-- `_craft_apk_full_path_from_variant`: strip the build-type suffix, then
the architecture substring length, and mark release artifacts `-unsigned`.
The source's local `postfix` variable is named `postfixPart` here. -/
def _craft_apk_full_path_from_variant (variant : String) :
    Except VariantError String :=
  match _get_architecture_and_build_type_from_variant variant with
  | .error e => .error e
  | .ok (architecture, build_type) =>
      let short_variant := strTake variant (strLen variant - strLen build_type)
      let shorter_variant := strTake short_variant (strLen short_variant - strLen architecture)
      let postfixPart := if build_type = "release" then "-unsigned" else ""
      .ok ("/build/reference-browser/app/build/outputs/apk/" ++ short_variant
        ++ "/" ++ build_type ++ "/app-" ++ shorter_variant ++ "-" ++ architecture
        ++ "-" ++ build_type ++ postfixPart ++ ".apk")

/-! ### Data model: external collaborators and the run state

The wall clock (`datetime.datetime.now()` and `taskcluster.fromNow`) is an
oracle `timeLine : Nat → Nat`: the `n`-th clock query of the process
returns `timeLine n`. Timestamps keep the queried instant together with
the relative offset passed to `taskcluster.fromNow` (the
`taskcluster.stringDate` rendering is left abstract). Console prints and
file writes are collected in an effect trace. -/

/-- A timestamp value: the clock instant it was derived from and the
`taskcluster.fromNow` offset added to it (`""` for `datetime.now()`). -/
structure Timestamp where
  base : Nat
  offset : String
deriving DecidableEq, Repr

/-- The `extra.treeherder` metadata dict. -/
structure Treeherder where
  jobKind : String
  platform : String
  symbol : String
  tier : Nat
deriving DecidableEq, Repr

/-- One entry of a task's `artifacts` dict. -/
structure Artifact where
  type : String
  path : String
  expires : Timestamp
deriving DecidableEq, Repr

/-- One entry of a `scriptworker` payload's `upstreamArtifacts` list.
The push-task entries carry no `formats` key, hence the `Option`. -/
structure UpstreamArtifact where
  formats : Option (List String)
  paths : List String
  taskId : Option String
  taskType : String
deriving DecidableEq, Repr

/-- The three payload shapes built by `decision_task.py`. -/
inductive Payload where
  | inRepo (taskclusterProxy : Bool) (chainOfTrust : Bool) (maxRunTime : Nat)
      (image : String) (command : List String)
      (artifacts : List (String × Artifact)) (env_TASK_GROUP_ID : Option String)
  | signing (maxRunTime : Nat) (upstreamArtifacts : List UpstreamArtifact)
  | pushApk (commit : Bool) (google_play_track : String)
      (upstreamArtifacts : List UpstreamArtifact)
deriving DecidableEq, Repr

/-- The task-descriptor dict returned by `create_raw_task`. -/
structure Task where
  workerType : String
  taskGroupId : Option String
  expires : Timestamp
  retries : Nat
  created : Timestamp
  tags : List (String × String)
  priority : String
  schedulerId : String
  provisionerId : String
  deadline : Timestamp
  dependencies : List (Option String)
  routes : List String
  scopes : List String
  requires : String
  payload : Payload
  treeherder : Option Treeherder
  metadata_name : String
  metadata_description : String
  metadata_owner : String
  metadata_source : String
deriving DecidableEq, Repr

/-- The record stored per task id in `TaskGraph._task_graph`
(`{'task': task_id}`). -/
structure GraphRecord where
  task : String
deriving DecidableEq, Repr

/-- `TaskGraph._task_graph`: an insertion-ordered dict from task id to
record, as an association list. -/
abbrev TaskGraphS := List (String × GraphRecord)

/-- Observable side effects of a run. `createTask` is the queue
collaborator's submission entry point; the source has this call commented
out, so nothing in the embedding ever emits it. -/
inductive Effect where
  | printTaskId (id : String)
  | printTaskBody (t : Task)
  | createTask (id : String) (t : Task)
  | writeFile (name : String)
  | writeTaskGraphFile (g : TaskGraphS)
deriving DecidableEq

/-- Module-level constants of `decision_task.py`: the environment values
read at import (`os.environ.get`) and `schedule_task`'s default
`task_id` argument, which Python evaluates once at import
(`task_id=taskcluster.slugId()`). -/
structure Ctx where
  TASK_ID : Option String
  REPO_URL : Option String
  BRANCH : Option String
  COMMIT : Option String
  PR_TITLE : String
  BUILD_WORKER_TYPE : String
  default_task_id : String

/-- Mutable run state: the clock oracle with its query counter, and the
effect trace. -/
structure World where
  timeLine : Nat → Nat
  timeIdx : Nat
  trace : List Effect

/-- One clock query (`datetime.datetime.now()` or the clock read inside
`taskcluster.fromNow`). -/
def readClock (w : World) : Nat × World :=
  (w.timeLine w.timeIdx, { w with timeIdx := w.timeIdx + 1 })

/-- Append one effect to the trace. -/
def emit (e : Effect) (w : World) : World :=
  { w with trace := w.trace ++ [e] }

/-! ### TaskDescriptor builders -/

/-- `create_raw_task`: the generic envelope. `datetime.datetime.now()`,
`taskcluster.fromNow('1 year')` and `taskcluster.fromNow('1 day')` are
three successive clock queries made inside each call. Python's
`(additional_dependencies or [])` and `(additional_routes or [])` are
identity on the lists the call sites pass. -/
def create_raw_task (ctx : Ctx) (name description workerType : String)
    (scopes : List String) (treeherder : Option Treeherder) (payload : Payload)
    (provisioner_id : String) (additional_dependencies : List (Option String))
    (additional_routes : List String) (w : World) : Task × World :=
  let (createdT, w) := readClock w
  let (expiresT, w) := readClock w
  let (deadlineT, w) := readClock w
  ({ workerType := workerType
     taskGroupId := ctx.TASK_ID
     expires := ⟨expiresT, "1 year"⟩
     retries := 5
     created := ⟨createdT, ""⟩
     tags := []
     priority := "lowest"
     schedulerId := "taskcluster-github"
     provisionerId := provisioner_id
     deadline := ⟨deadlineT, "1 day"⟩
     dependencies := ctx.TASK_ID :: additional_dependencies
     routes := ("tc-treeherder.v2.reference-browser." ++ pyShow ctx.COMMIT)
       :: additional_routes
     scopes := scopes
     requires := "all-completed"
     payload := payload
     treeherder := treeherder
     metadata_name := name
     metadata_description := description
     metadata_owner := "android-components-team@mozilla.com"
     metadata_source := "https://github.com/mozilla-mobile/android-components" },
   w)

/-- `create_in_repo_task`: wraps `create_raw_task` with the docker payload
(checkout command, proxy/chain-of-trust features, worker from
`BUILD_WORKER_TYPE`). -/
def create_in_repo_task (ctx : Ctx) (name description full_command : String)
    (generate_cot : Bool) (scopes : List String) (treeherder : Option Treeherder)
    (artifacts : List (String × Artifact)) (w : World) : Task × World :=
  create_raw_task ctx name description ctx.BUILD_WORKER_TYPE scopes treeherder
    (.inRepo true generate_cot 7200 "mozillamobile/android-components:1.15"
      ["/bin/bash", "--login", "-cx",
        "cd .. && git clone " ++ pyShow ctx.REPO_URL
          ++ " && cd reference-browser && git config advice.detachedHead false && git checkout "
          ++ pyShow ctx.COMMIT ++ " && " ++ full_command]
      artifacts ctx.TASK_ID)
    "aws-provisioner-v1" [] [] w

/-- `create_task`: prefixes the Gradle invocation. -/
def create_task (ctx : Ctx) (name description command : String)
    (generate_cot : Bool) (scopes : List String) (treeherder : Option Treeherder)
    (artifacts : List (String × Artifact)) (w : World) : Task × World :=
  create_in_repo_task ctx name description
    ("./gradlew --no-daemon clean " ++ command) generate_cot scopes treeherder
    artifacts w

/-- `create_detekt_task`. -/
def create_detekt_task (ctx : Ctx) (w : World) : Task × World :=
  create_task ctx "detekt" "Running detekt over all modules" "detekt" false []
    (some ⟨"test", "lint", "detekt", 1⟩) [] w

/-- `create_ktlint_task`. -/
def create_ktlint_task (ctx : Ctx) (w : World) : Task × World :=
  create_task ctx "ktlint" "Running ktlint over all modules" "ktlint" false []
    (some ⟨"test", "lint", "ktlint", 1⟩) [] w

/-- `create_lint_task` (the description typo is the source's). -/
def create_lint_task (ctx : Ctx) (w : World) : Task × World :=
  create_task ctx "lint" "Running tlint over all modules" "lint" false []
    (some ⟨"test", "lint", "lint", 1⟩) [] w

/-- `create_compare_locales_task`. -/
def create_compare_locales_task (ctx : Ctx) (w : World) : Task × World :=
  create_in_repo_task ctx "compare-locales"
    "Validate strings.xml with compare-locales"
    "pip install \"compare-locales>=4.0.1,<5.0\" && compare-locales --validate l10n.toml ."
    false [] (some ⟨"test", "lint", "compare-locale", 2⟩) [] w

/-- `create_nimbledroid_task`. -/
def create_nimbledroid_task (ctx : Ctx) (w : World) : Task × World :=
  create_in_repo_task ctx "(RB for Android) Upload Debug APK to Nimbledroid"
    "Upload APKs to Nimbledroid for performance measurement and tracking."
    "./gradlew --no-daemon clean assembleDebug && python automation/taskcluster/upload_apk_nimbledroid.py"
    false ["secrets:get:project/mobile/reference-browser/nimbledroid"] none [] w

/-- `_craft_artifacts_from_variant`: single-entry artifacts dict whose
`expires` makes one `taskcluster.fromNow('1 year')` clock query. The
source calls `_craft_apk_full_path_from_variant`, a second classification
of the same token. -/
def _craft_artifacts_from_variant (variant : String) (w : World) :
    Except VariantError (List (String × Artifact)) × World :=
  match _get_architecture_and_build_type_from_variant variant with
  | .error e => (.error e, w)
  | .ok (arch, _) =>
      match _craft_apk_full_path_from_variant variant with
      | .error e => (.error e, w)
      | .ok apkPath =>
          let (t, w) := readClock w
          (.ok [("public/target." ++ arch ++ ".apk", ⟨"file", apkPath, ⟨t, "1 year"⟩⟩)], w)

/-- `create_variant_test_task`: classification happens while building the
treeherder dict, before any clock query. -/
def create_variant_test_task (ctx : Ctx) (variant : String) (w : World) :
    Except VariantError Task × World :=
  match _craft_treeherder_platform_from_variant variant with
  | .error e => (.error e, w)
  | .ok platform =>
      let (t, w) := create_task ctx ("test: " ++ variant)
        ("Building and testing variant " ++ variant)
        ("test" ++ pyCapitalize variant ++ "UnitTest && ls -R /build/reference-browser/")
        false [] (some ⟨"test", platform, "T", 1⟩) [] w
      (.ok t, w)

/-- `create_variant_assemble_task`: treeherder platform first, then the
artifacts dict (with its clock query), then the envelope. -/
def create_variant_assemble_task (ctx : Ctx) (variant : String) (w : World) :
    Except VariantError Task × World :=
  match _craft_treeherder_platform_from_variant variant with
  | .error e => (.error e, w)
  | .ok platform =>
      match _craft_artifacts_from_variant variant w with
      | (.error e, w) => (.error e, w)
      | (.ok artifacts, w) =>
          let (t, w) := create_task ctx ("assemble: " ++ variant)
            ("Building and testing variant " ++ variant)
            ("assemble" ++ pyCapitalize variant ++ " && ls -R /build/reference-browser/")
            true [] (some ⟨"build", platform, "A", 1⟩) artifacts w
          (.ok t, w)

/-- `create_dep_signing_task`: one upstream-artifact entry and one extra
dependency per `(apk_path, task_id)` pair. -/
def create_dep_signing_task (ctx : Ctx) (artifacts : List (String × Option String))
    (w : World) : Task × World :=
  create_raw_task ctx "dep-sign" "Dep-signing for performance testing"
    "mobile-signing-dep-v1"
    ["project:mobile:reference-browser:releng:signing:format:autograph_apk_reference_browser",
     "project:mobile:reference-browser:releng:signing:cert:dep-signing"]
    (some ⟨"other", "android-all", "Ns", 1⟩)
    (.signing 3600 (artifacts.map fun p =>
      ⟨some ["autograph_apk_reference_browser"], [p.1], p.2, "build"⟩))
    "scriptworker-prov-v1" (artifacts.map fun p => p.2) [] w

/-- The calendar date obtained from `arrow.get(date_string)` (the parse
itself is the external `arrow` collaborator). -/
structure Date where
  year : Nat
  month : Nat
  day : Nat

/-- `create_nightly_assemble_task`'s artifacts dict comprehension: one
`taskcluster.fromNow('1 year')` clock query per architecture. -/
def nightlyArtifacts (architectures : List String) (w : World) :
    List (String × Artifact) × World :=
  match architectures with
  | [] => ([], w)
  | arch :: rest =>
      let (t, w) := readClock w
      let entry := ("public/target." ++ arch ++ ".apk",
        (⟨"file",
          "/build/reference-browser/app/build/outputs/apk/geckoNightly"
            ++ pyCapitalize arch ++ "/release/app-geckoNightly-" ++ arch
            ++ "-release-unsigned.apk",
          ⟨t, "1 year"⟩⟩ : Artifact))
      let (restEntries, w) := nightlyArtifacts rest w
      (entry :: restEntries, w)

/-- `create_nightly_assemble_task`. -/
def create_nightly_assemble_task (ctx : Ctx) (architectures : List String)
    (w : World) : Task × World :=
  let (artifacts, w) := nightlyArtifacts architectures w
  create_in_repo_task ctx "(Reference Browser) Build task"
    "Build Reference Browser from source code."
    ("python automation/taskcluster/helper/get-secret.py "
      ++ "-s project/mobile/reference-browser/sentry -k dsn -f .sentry_token "
      ++ "&& ./gradlew --no-daemon -PcrashReportEnabled=true -Ptelemetry=true "
      ++ "clean test assembleRelease")
    true ["secrets:get:project/mobile/reference-browser/sentry"]
    (some ⟨"build", "android-all", "NA", 1⟩) artifacts w

/-- `create_nightly_signing_task`: the staging flag selects the signing
certificate class, the index-route family and the worker pool. -/
def create_nightly_signing_task (ctx : Ctx) (architectures : List String)
    (build_task_id : String) (date : Date) (is_staging : Bool) (w : World) :
    Task × World :=
  let signing := if is_staging then "dep-signing" else "release-signing"
  let index_release := if is_staging then "staging-signed-nightly" else "signed-nightly"
  let worker_type := if is_staging then "mobile-signing-dep-v1" else "mobile-signing-v1"
  create_raw_task ctx "(Reference Browser) Signing task"
    "Sign release builds of Reference Browser" worker_type
    ["project:mobile:reference-browser:releng:signing:cert:" ++ signing,
     "project:mobile:reference-browser:releng:signing:format:autograph_apk_reference_browser"]
    (some ⟨"other", "android-all", "Ns", 1⟩)
    (.signing 3600
      [⟨some ["autograph_apk_reference_browser"],
        architectures.map (fun arch => "public/target." ++ arch ++ ".apk"),
        some build_task_id, "build"⟩])
    "scriptworker-prov-v1" [some build_task_id]
    ["index.project.mobile.reference-browser." ++ index_release ++ ".nightly."
       ++ toString date.year ++ "." ++ toString date.month ++ "."
       ++ toString date.day ++ ".latest",
     "index.project.mobile.reference-browser." ++ index_release ++ ".nightly."
       ++ toString date.year ++ "." ++ toString date.month ++ "."
       ++ toString date.day ++ ".revision." ++ pyShow ctx.COMMIT,
     "index.project.mobile.reference-browser." ++ index_release ++ ".nightly.latest"]
    w

/-- `create_google_push_task`: the staging flag selects the pushapk worker
pool and appends `:dep` to the Google Play scope. -/
def create_google_push_task (ctx : Ctx) (architectures : List String)
    (sign_task_id : String) (is_staging : Bool) (w : World) : Task × World :=
  let worker_type := if is_staging then "mobile-pushapk-dep-v1" else "mobile-pushapk-v1"
  create_raw_task ctx "(Reference Browser) Push task"
    "Upload signed release builds of Reference Browser to Google Play" worker_type
    ["project:mobile:reference-browser:releng:googleplay:product:reference-browser"
       ++ (if is_staging then ":dep" else "")]
    (some ⟨"other", "android-all", "gp", 1⟩)
    (.pushApk true "nightly"
      [⟨none,
        architectures.map (fun arch => "public/target." ++ arch ++ ".apk"),
        some sign_task_id, "signing"⟩])
    "scriptworker-prov-v1" [some sign_task_id] [] w

/-! ### TaskGraph (`lib/taskgraph.py`) -/

/-- Python dict assignment `d[k] = v`: update in place when the key
exists (insertion order kept), append otherwise. -/
def dictInsert : TaskGraphS → String → GraphRecord → TaskGraphS
  | [], k, v => [(k, v)]
  | (k0, v0) :: rest, k, v =>
      if k0 = k then (k0, v) :: rest else (k0, v0) :: dictInsert rest k v

/-- The keys of the graph dict, in insertion order. -/
def dictKeys (g : TaskGraphS) : List String := g.map fun p => p.1

/-- `schedule_task(queue, task)` called with the default `task_id`
argument: Python evaluated `taskcluster.slugId()` once at module import,
so every such call returns the same `ctx.default_task_id`. The body
prints the id and the task body; the `queue.createTask(task_id, task)`
line is commented out in the source, so no `.createTask` effect is
emitted and the queue is never consulted. -/
def schedule_task (ctx : Ctx) (task : Task) (w : World) : String × World :=
  let task_id := ctx.default_task_id
  let w := emit (.printTaskId task_id) w
  let w := emit (.printTaskBody task) w
  (task_id, w)

/-- `TaskGraph.schedule_new_task`: schedule through `schedule_task`, then
record `{'task': task_id}` under the returned id. -/
def schedule_new_task (ctx : Ctx) (g : TaskGraphS) (task : Task) (w : World) :
    String × TaskGraphS × World :=
  let (task_id, w) := schedule_task ctx task w
  (task_id, dictInsert g task_id ⟨task_id⟩, w)

/-- `TaskGraph.get_raw_graph`: returns the accumulated mapping; it reads
`self._task_graph` and touches nothing. -/
def get_raw_graph (g : TaskGraphS) : TaskGraphS := g

/-- `populate_chain_of_trust_required_but_unused_files`: writes the two
placeholder files and serialises the raw graph to `task-graph.json`. -/
def populate_chain_of_trust_required_but_unused_files (raw_graph : TaskGraphS)
    (w : World) : World :=
  let w := emit (.writeFile "actions.json") w
  let w := emit (.writeFile "parameters.yml") w
  emit (.writeTaskGraphFile raw_graph) w

/-! ### GraphAssembly policies -/

/-- The `nightly` policy (`release` trigger of `decision_task.py`):
assemble, sign, push, and — outside staging — the Nimbledroid upload;
then serialise the graph. Returns the raw graph for inspection alongside
the final world. -/
def nightly (ctx : Ctx) (date : Date) (is_staging : Bool) (w : World) :
    TaskGraphS × World :=
  let g : TaskGraphS := []
  let architectures := ["x86", "arm", "aarch64"]
  let (buildTask, w) := create_nightly_assemble_task ctx architectures w
  let (build_task_id, g, w) := schedule_new_task ctx g buildTask w
  let (signTask, w) :=
    create_nightly_signing_task ctx architectures build_task_id date is_staging w
  let (sign_task_id, g, w) := schedule_new_task ctx g signTask w
  let (pushTask, w) := create_google_push_task ctx architectures sign_task_id is_staging w
  let (_, g, w) := schedule_new_task ctx g pushTask w
  let (g, w) :=
    if is_staging then (g, w)
    else
      let (nimTask, w) := create_nimbledroid_task ctx w
      let (_, g, w) := schedule_new_task ctx g nimTask w
      (g, w)
  let raw_graph := get_raw_graph g
  let w := populate_chain_of_trust_required_but_unused_files raw_graph w
  (raw_graph, w)

/-- The per-variant loop of `master_push`: schedule a test task and an
assemble task for each variant and remember the assemble-task id of the
`arm`+debug and `aarch64`+debug variants (an unparseable variant raises
out of the loop). -/
def processVariants (ctx : Ctx) (variants : List String)
    (armId aarch64Id : Option String) (g : TaskGraphS) (w : World) :
    Except VariantError (Option String × Option String × TaskGraphS) × World :=
  match variants with
  | [] => (.ok (armId, aarch64Id, g), w)
  | variant :: rest =>
      match create_variant_test_task ctx variant w with
      | (.error e, w) => (.error e, w)
      | (.ok testTask, w) =>
          let (_, g, w) := schedule_new_task ctx g testTask w
          match create_variant_assemble_task ctx variant w with
          | (.error e, w) => (.error e, w)
          | (.ok assembleTask, w) =>
              let (assemble_task_id, g, w) := schedule_new_task ctx g assembleTask w
              match _get_architecture_and_build_type_from_variant variant with
              | .error e => (.error e, w)
              | .ok (arch, build_type) =>
                  let armId' :=
                    if build_type = "debug" ∧ arch = "arm" then some assemble_task_id
                    else armId
                  let aarch64Id' :=
                    if build_type = "debug" ∧ arch = "aarch64" then some assemble_task_id
                    else aarch64Id
                  processVariants ctx rest armId' aarch64Id' g w

/-- The static-analysis prefix of `master_push` (lines before the
variant loop): schedule detekt, ktlint, compare-locales and lint on a
fresh graph. -/
def masterPushPrelude (ctx : Ctx) (w : World) : TaskGraphS × World :=
  let g : TaskGraphS := []
  let (detektTask, w) := create_detekt_task ctx w
  let (_, g, w) := schedule_new_task ctx g detektTask w
  let (ktlintTask, w) := create_ktlint_task ctx w
  let (_, g, w) := schedule_new_task ctx g ktlintTask w
  let (clTask, w) := create_compare_locales_task ctx w
  let (_, g, w) := schedule_new_task ctx g clTask w
  let (lintTask, w) := create_lint_task ctx w
  let (_, g, w) := schedule_new_task ctx g lintTask w
  (g, w)

/-- The tail of `master_push` after the variant loop: one dep-signing
task over the remembered `arm`/`aarch64` debug assemble ids, then the
compliance files (an error from the loop propagates out unchanged). -/
def masterPushFinish (ctx : Ctx)
    (r : Except VariantError (Option String × Option String × TaskGraphS) × World) :
    Except VariantError Unit × World :=
  match r with
  | (.error e, w) => (.error e, w)
  | (.ok (arm_assemble_task_id, aarch64_assemble_task_id, g), w) =>
      let (signTask, w) := create_dep_signing_task ctx
        [("public/target.apk", arm_assemble_task_id),
         ("public/target.apk", aarch64_assemble_task_id)] w
      let (_, g, w) := schedule_new_task ctx g signTask w
      let raw_graph := get_raw_graph g
      let w := populate_chain_of_trust_required_but_unused_files raw_graph w
      (.ok (), w)

/-- The `master_push` policy: the static-analysis prefix, the per-variant
loop, then the signing/serialisation tail. -/
def master_push (ctx : Ctx) (variants : List String) (w : World) :
    Except VariantError Unit × World :=
  masterPushFinish ctx (processVariants ctx variants none none
    (masterPushPrelude ctx w).1 (masterPushPrelude ctx w).2)

/-- The per-variant loop of `pr_open_or_push`: test and assemble tasks
submitted through the module-level `schedule_task` (no graph object). -/
def prVariantLoop (ctx : Ctx) (variants : List String) (w : World) :
    Except VariantError Unit × World :=
  match variants with
  | [] => (.ok (), w)
  | variant :: rest =>
      match create_variant_test_task ctx variant w with
      | (.error e, w) => (.error e, w)
      | (.ok testTask, w) =>
          let (_, w) := schedule_task ctx testTask w
          match create_variant_assemble_task ctx variant w with
          | (.error e, w) => (.error e, w)
          | (.ok assembleTask, w) =>
              let (_, w) := schedule_task ctx assembleTask w
              prVariantLoop ctx rest w

/-- The `pr_open_or_push` policy: four static-analysis tasks then the
per-variant loop; no graph is kept and no files are written. -/
def pr_open_or_push (ctx : Ctx) (variants : List String) (w : World) :
    Except VariantError Unit × World :=
  let (detektTask, w) := create_detekt_task ctx w
  let (_, w) := schedule_task ctx detektTask w
  let (ktlintTask, w) := create_ktlint_task ctx w
  let (_, w) := schedule_task ctx ktlintTask w
  let (clTask, w) := create_compare_locales_task ctx w
  let (_, w) := schedule_task ctx clTask w
  let (lintTask, w) := create_lint_task ctx w
  let (_, w) := schedule_task ctx lintTask w
  prVariantLoop ctx variants w

/-! ### Observations on a run -/

/-- The task bodies printed by `schedule_task`, i.e. the descriptors
submitted during the run, in order. -/
def scheduledTasks (w : World) : List Task :=
  w.trace.filterMap fun e =>
    match e with
    | .printTaskBody t => some t
    | _ => none

/-- The scheduled descriptors named `dep-sign`. -/
def depSignBodies (w : World) : List Task :=
  (scheduledTasks w).filter fun t => t.metadata_name == "dep-sign"

/-- The upstream task ids referenced by a payload's `upstreamArtifacts`
list (empty for docker payloads, which have none). -/
def upstreamTaskIds : Payload → List (Option String)
  | .inRepo _ _ _ _ _ _ _ => []
  | .signing _ arts => arts.map fun u => u.taskId
  | .pushApk _ _ arts => arts.map fun u => u.taskId

/-- A client-side view of one run's interaction with a `TaskGraph`, for
stating the append-only/snapshot invariants: an interleaving of
`schedule_new_task` and `get_raw_graph` calls. -/
inductive GraphOp where
  | schedule (t : Task)
  | snapshot

/-- Run a sequence of graph operations; `snapshot` calls
`get_raw_graph` and discards the result, exactly as a read-only caller
would. -/
def runOps (ctx : Ctx) (ops : List GraphOp) (g : TaskGraphS) (w : World) :
    TaskGraphS × World :=
  match ops with
  | [] => (g, w)
  | .schedule t :: rest =>
      let (_, g, w) := schedule_new_task ctx g t w
      runOps ctx rest g w
  | .snapshot :: rest =>
      let _ := get_raw_graph g
      runOps ctx rest g w

/-- Fixed module constants for concrete runs: environment values as a CI
run would provide them, and `"slug0"` for the import-time
`taskcluster.slugId()` evaluation. -/
def ctx0 : Ctx :=
  { TASK_ID := some "GROUP"
    REPO_URL := some "https://github.com/mozilla-mobile/reference-browser"
    BRANCH := some "master"
    COMMIT := some "0a1b2c3d"
    PR_TITLE := ""
    BUILD_WORKER_TYPE := "github-worker"
    default_task_id := "slug0" }

/-- A concrete start-of-run world: the clock oracle returns the query
index (so the wall clock visibly advances between queries), no queries
made yet, empty trace. -/
def w0 : World := ⟨fun i => i, 0, []⟩

/-! ### Auxiliary definitions used by the theorems -/

/-- Modelled from the claim text: the recognized architecture substrings
found in the lowered token (in the fixed order aarch64, x86, arm), so
"contains exactly one" is `specFoundArchs lv = [a]`. -/
def specFoundArchs (lv : String) : List String :=
  (if pyContains lv "aarch64" then ["aarch64"] else [])
    ++ (if pyContains lv "x86" then ["x86"] else [])
    ++ (if pyContains lv "arm" then ["arm"] else [])

/-- Modelled from the spec: the architecture the priority-order scan
`aarch64 > x86 > arm` settles on, `none` when no substring is present. -/
def specPriorityArch (lv : String) : Option String :=
  if pyContains lv "aarch64" then some "aarch64"
  else if pyContains lv "x86" then some "x86"
  else if pyContains lv "arm" then some "arm"
  else none

/-- Modelled from the claim text: the build type determined by the
token's suffix, `none` when the token ends in neither marker. -/
def specBuildType (lv : String) : Option String :=
  if pyEndsWith lv "debug" then some "debug"
  else if pyEndsWith lv "release" then some "release"
  else none

/-- The printed task bodies in an effect list. -/
def bodiesOf (tr : List Effect) : List Task :=
  tr.filterMap fun e =>
    match e with
    | .printTaskBody t => some t
    | _ => none

/-- Whether a descriptor is the dep-signing one. -/
def isDepSignName (t : Task) : Bool := t.metadata_name == "dep-sign"

/-- The apk path produced for a token classified as `(a0, b0)` (the
right-hand side of `craft_eq`). -/
def apkPath (v a0 b0 : String) : String :=
  "/build/reference-browser/app/build/outputs/apk/"
    ++ strTake v (strLen v - strLen b0) ++ "/" ++ b0 ++ "/app-"
    ++ strTake (strTake v (strLen v - strLen b0))
        (strLen (strTake v (strLen v - strLen b0)) - strLen a0)
    ++ "-" ++ a0 ++ "-" ++ b0
    ++ (if b0 = "release" then "-unsigned" else "") ++ ".apk"

/-- The test task a valid variant produces (value and output world of the
underlying `create_task` call). -/
def testTaskOf (ctx : Ctx) (v a0 b0 : String) (w : World) : Task × World :=
  create_task ctx ("test: " ++ v) ("Building and testing variant " ++ v)
    ("test" ++ pyCapitalize v ++ "UnitTest && ls -R /build/reference-browser/")
    false [] (some ⟨"test", "android-" ++ a0 ++ "-" ++ b0, "T", 1⟩) [] w

/-- The assemble task a valid variant produces: its single artifact binds
the clock instant of the `fromNow('1 year')` query made while building
the artifacts dict, and the envelope is then built in the advanced
world. -/
def assembleTaskOf (ctx : Ctx) (v a0 b0 : String) (w : World) : Task × World :=
  create_task ctx ("assemble: " ++ v) ("Building and testing variant " ++ v)
    ("assemble" ++ pyCapitalize v ++ " && ls -R /build/reference-browser/")
    true [] (some ⟨"build", "android-" ++ a0 ++ "-" ++ b0, "A", 1⟩)
    [("public/target." ++ a0 ++ ".apk",
      ⟨"file", apkPath v a0 b0, ⟨w.timeLine w.timeIdx, "1 year"⟩⟩)]
    { w with timeIdx := w.timeIdx + 1 }

/-- Whether the classifier maps `v` to the given architecture and build
type (the loop's `build_type == bt and arch == arch` test). -/
def variantMatches (v arch bt : String) : Bool :=
  match _get_architecture_and_build_type_from_variant v with
  | .ok (a, b) => b == bt && a == arch
  | .error _ => false

/-- The `arm_assemble_task_id` value after the loop: `some` of the run's
(unique) task id when some arm-debug variant occurs, the incoming value
otherwise. -/
def updArm (ctx : Ctx) (vs : List String) (armId : Option String) : Option String :=
  if vs.any fun v => variantMatches v "arm" "debug" then some ctx.default_task_id
  else armId

/-- Likewise for `aarch64_assemble_task_id`. -/
def updA64 (ctx : Ctx) (vs : List String) (a64Id : Option String) : Option String :=
  if vs.any fun v => variantMatches v "aarch64" "debug" then some ctx.default_task_id
  else a64Id

/-- The graph after the two schedules of one loop iteration (both insert
the same module-default key). -/
def stepGraph (ctx : Ctx) (g : TaskGraphS) : TaskGraphS :=
  dictInsert (dictInsert g ctx.default_task_id ⟨ctx.default_task_id⟩)
    ctx.default_task_id ⟨ctx.default_task_id⟩

/-- The world after building and scheduling the test task of a valid
variant. -/
def afterTestWorld (ctx : Ctx) (v a0 b0 : String) (w : World) : World :=
  { (testTaskOf ctx v a0 b0 w).2 with
    trace := (testTaskOf ctx v a0 b0 w).2.trace
      ++ [Effect.printTaskId ctx.default_task_id]
      ++ [Effect.printTaskBody (testTaskOf ctx v a0 b0 w).1] }

/-- The world after one full loop iteration over a valid variant. -/
def stepWorld (ctx : Ctx) (v a0 b0 : String) (w : World) : World :=
  { (assembleTaskOf ctx v a0 b0 (afterTestWorld ctx v a0 b0 w)).2 with
    trace := (assembleTaskOf ctx v a0 b0 (afterTestWorld ctx v a0 b0 w)).2.trace
      ++ [Effect.printTaskId ctx.default_task_id]
      ++ [Effect.printTaskBody
            (assembleTaskOf ctx v a0 b0 (afterTestWorld ctx v a0 b0 w)).1] }

/-! ### Dictionary lemmas -/

theorem dictKeys_nil : dictKeys [] = [] := rfl

theorem dictKeys_cons (p : String × GraphRecord) (rest : TaskGraphS) :
    dictKeys (p :: rest) = p.1 :: dictKeys rest := rfl

theorem self_mem_dictKeys_insert (g : TaskGraphS) (k : String) (v : GraphRecord) :
    k ∈ dictKeys (dictInsert g k v) := by
  induction g with
  | nil => simp [dictInsert, dictKeys]
  | cons p rest ih =>
      by_cases h : p.1 = k
      · simp [dictInsert, dictKeys_cons, h]
      · simp only [dictInsert]
        rw [if_neg h, dictKeys_cons]
        exact List.mem_cons_of_mem _ ih

theorem dictKeys_subset_insert (g : TaskGraphS) (k : String) (v : GraphRecord) :
    dictKeys g ⊆ dictKeys (dictInsert g k v) := by
  induction g with
  | nil => simp [dictKeys]
  | cons p rest ih =>
      intro a ha
      by_cases h : p.1 = k
      · simpa [dictInsert, dictKeys_cons, h] using ha
      · simp only [dictInsert]
        rw [if_neg h, dictKeys_cons]
        rcases (by simpa [dictKeys_cons] using ha : a = p.1 ∨ a ∈ dictKeys rest) with h1 | h1
        · simp [h1]
        · exact List.mem_cons_of_mem _ (ih h1)

theorem dictKeys_insert_of_mem (g : TaskGraphS) (k : String) (v : GraphRecord)
    (h : k ∈ dictKeys g) : dictKeys (dictInsert g k v) = dictKeys g := by
  induction g with
  | nil => simp [dictKeys] at h
  | cons p rest ih =>
      by_cases hp : p.1 = k
      · simp [dictInsert, dictKeys_cons, hp]
      · have hr : k ∈ dictKeys rest := by
          rcases (by simpa [dictKeys_cons] using h : k = p.1 ∨ k ∈ dictKeys rest) with h1 | h1
          · exact absurd h1.symm hp
          · exact h1
        simp only [dictInsert]
        rw [if_neg hp, dictKeys_cons, dictKeys_cons, ih hr]

theorem runOps_keys_mono (ctx : Ctx) (ops : List GraphOp) :
    ∀ (g : TaskGraphS) (w : World),
      dictKeys g ⊆ dictKeys (runOps ctx ops g w).1 := by
  induction ops with
  | nil => intro g w; exact fun a ha => ha
  | cons op rest ih =>
      intro g w
      cases op with
      | schedule t =>
          exact fun a ha =>
            ih _ _ (dictKeys_subset_insert g ctx.default_task_id ⟨ctx.default_task_id⟩ ha)
      | snapshot => exact ih g w

/-! ### C1 -/

/-- C1 (code bug): `schedule_task`'s default `task_id=taskcluster.slugId()`
is evaluated once at module import, so within a run every
`schedule_new_task` call returns the same identifier — the module-level
default — and a second schedule adds no new key to the graph mapping.
The claim's "fresh unique identifier per call" is false on the code. -/
theorem claim_C1_schedule_ids_collide (ctx : Ctx) (g : TaskGraphS)
    (t1 t2 : Task) (w : World) :
    (schedule_new_task ctx g t1 w).1 = ctx.default_task_id
    ∧ (schedule_new_task ctx (schedule_new_task ctx g t1 w).2.1 t2
         (schedule_new_task ctx g t1 w).2.2).1
        = (schedule_new_task ctx g t1 w).1
    ∧ dictKeys (schedule_new_task ctx (schedule_new_task ctx g t1 w).2.1 t2
         (schedule_new_task ctx g t1 w).2.2).2.1
        = dictKeys (schedule_new_task ctx g t1 w).2.1 := by
  refine ⟨rfl, rfl, ?_⟩
  exact dictKeys_insert_of_mem _ _ _
    (self_mem_dictKeys_insert g ctx.default_task_id ⟨ctx.default_task_id⟩)

/-! ### C2 -/

/-- C2 (code bug): the body of `schedule_task` only prints the id and the
task; the `queue.createTask(task_id, task)` call is commented out, so no
submission effect is ever produced and no submission failure can abort
the run. -/
theorem claim_C2_no_submission (ctx : Ctx) (task : Task) (w : World) :
    (schedule_task ctx task w).2.trace
      = w.trace ++ [.printTaskId ctx.default_task_id, .printTaskBody task]
    ∧ ∀ (id : String) (t : Task),
        Effect.createTask id t
          ∉ ((schedule_task ctx task w).2.trace.drop w.trace.length) := by
  constructor
  · simp [schedule_task, emit]
  · intro id t
    have h : (schedule_task ctx task w).2.trace
        = w.trace ++ [.printTaskId ctx.default_task_id, .printTaskBody task] := by
      simp [schedule_task, emit]
    rw [h, List.drop_left]
    simp

/-! ### C7 -/

/-- C7: a scheduled identifier is a key of the mapping returned by every
subsequent snapshot, the key set never shrinks across any further
interleaving of schedules and snapshots, and `get_raw_graph` itself
leaves graph and world untouched. -/
theorem claim_C7_graph_append_only (ctx : Ctx) (g : TaskGraphS) (t : Task)
    (w : World) (ops : List GraphOp) :
    (schedule_new_task ctx g t w).1
        ∈ dictKeys (runOps ctx ops (schedule_new_task ctx g t w).2.1
            (schedule_new_task ctx g t w).2.2).1
    ∧ dictKeys g ⊆ dictKeys (schedule_new_task ctx g t w).2.1
    ∧ dictKeys (schedule_new_task ctx g t w).2.1
        ⊆ dictKeys (runOps ctx ops (schedule_new_task ctx g t w).2.1
            (schedule_new_task ctx g t w).2.2).1
    ∧ (∀ (g1 : TaskGraphS), get_raw_graph g1 = g1)
    ∧ (∀ (g1 : TaskGraphS) (w1 : World) (rest : List GraphOp),
        runOps ctx (.snapshot :: rest) g1 w1 = runOps ctx rest g1 w1) := by
  refine ⟨?_, ?_, ?_, fun g1 => rfl, fun g1 w1 rest => rfl⟩
  · exact runOps_keys_mono ctx ops _ _
      (self_mem_dictKeys_insert g ctx.default_task_id ⟨ctx.default_task_id⟩)
  · exact dictKeys_subset_insert g ctx.default_task_id ⟨ctx.default_task_id⟩
  · exact runOps_keys_mono ctx ops _ _

/-! ### C9 -/

/-- C9 corrected: the run-independent envelope fields hold (retries 5,
priority `lowest`, dependencies seeded with the run's task-group id), but
each `create_raw_task` call makes its own three clock queries — `created`
is `datetime.now()` at the call, `expires`/`deadline` are
`taskcluster.fromNow` at the call — rather than deriving from a single
"now" captured at graph-build start. -/
theorem claim_C9_envelope_fields (ctx : Ctx)
    (name description workerType : String) (scopes : List String)
    (th : Option Treeherder) (payload : Payload) (provisioner_id : String)
    (additional_dependencies : List (Option String))
    (additional_routes : List String) (tl : Nat → Nat) (n : Nat)
    (tr : List Effect) :
    ((create_raw_task ctx name description workerType scopes th payload
        provisioner_id additional_dependencies additional_routes
        ⟨tl, n, tr⟩).1.retries = 5
     ∧ (create_raw_task ctx name description workerType scopes th payload
        provisioner_id additional_dependencies additional_routes
        ⟨tl, n, tr⟩).1.priority = "lowest"
     ∧ (create_raw_task ctx name description workerType scopes th payload
        provisioner_id additional_dependencies additional_routes
        ⟨tl, n, tr⟩).1.dependencies = ctx.TASK_ID :: additional_dependencies)
    ∧ (create_raw_task ctx name description workerType scopes th payload
        provisioner_id additional_dependencies additional_routes
        ⟨tl, n, tr⟩).1.created = ⟨tl n, ""⟩
    ∧ (create_raw_task ctx name description workerType scopes th payload
        provisioner_id additional_dependencies additional_routes
        ⟨tl, n, tr⟩).1.expires = ⟨tl (n + 1), "1 year"⟩
    ∧ (create_raw_task ctx name description workerType scopes th payload
        provisioner_id additional_dependencies additional_routes
        ⟨tl, n, tr⟩).1.deadline = ⟨tl (n + 2), "1 day"⟩
    ∧ (create_raw_task ctx name description workerType scopes th payload
        provisioner_id additional_dependencies additional_routes
        ⟨tl, n, tr⟩).2 = ⟨tl, n + 3, tr⟩ :=
  ⟨⟨rfl, rfl, rfl⟩, rfl, rfl, rfl, rfl⟩

/-- C9 counterexample: in the `pr-open-or-push` run over an empty variant
list, with a clock that returns the query index, the four scheduled
descriptors carry `created` instants 0, 3, 6 and 9 — they do not share
one `created` timestamp, refuting the single-"now" part of the claim. -/
theorem claim_C9_counterexample :
    ((scheduledTasks (pr_open_or_push ctx0 [] w0).2).map Task.created)
      = [⟨0, ""⟩, ⟨3, ""⟩, ⟨6, ""⟩, ⟨9, ""⟩]
    ∧ ¬ ∃ ts : Timestamp,
        ∀ c ∈ (scheduledTasks (pr_open_or_push ctx0 [] w0).2).map Task.created,
          c = ts := by
  constructor
  · rfl
  · intro ⟨ts, hts⟩
    have h0 : (⟨0, ""⟩ : Timestamp) = ts := by
      apply hts
      rw [(by rfl : (scheduledTasks (pr_open_or_push ctx0 [] w0).2).map Task.created
        = [⟨0, ""⟩, ⟨3, ""⟩, ⟨6, ""⟩, ⟨9, ""⟩])]
      simp
    have h3 : (⟨3, ""⟩ : Timestamp) = ts := by
      apply hts
      rw [(by rfl : (scheduledTasks (pr_open_or_push ctx0 [] w0).2).map Task.created
        = [⟨0, ""⟩, ⟨3, ""⟩, ⟨6, ""⟩, ⟨9, ""⟩])]
      simp
    rw [← h3] at h0
    exact absurd (congrArg Timestamp.base h0) (by decide)

/-! ### C8 -/

/-- C8 counterexample: with an empty discovered-variant list, the
`pr-open-or-push` run finishes without any error, scheduling only the
four static-analysis tasks, and the `master-push` run also finishes
without any error — no fatal configuration error is raised. -/
theorem claim_C8_counterexample :
    (pr_open_or_push ctx0 [] w0).1 = .ok ()
    ∧ (scheduledTasks (pr_open_or_push ctx0 [] w0).2).map Task.metadata_name
        = ["detekt", "ktlint", "compare-locales", "lint"]
    ∧ (master_push ctx0 [] w0).1 = .ok () :=
  ⟨rfl, rfl, rfl⟩

set_option maxHeartbeats 1600000 in
/-- C8 corrected: an empty variant list is not detected. For any module
constants and clock, `pr_open_or_push` completes normally with exactly
the four static-analysis tasks, and `master_push` completes normally,
scheduling its dep-signing task with both extra dependencies `None`. -/
theorem claim_C8_empty_variants_proceeds (ctx : Ctx) (tl : Nat → Nat) (n : Nat) :
    (pr_open_or_push ctx [] ⟨tl, n, []⟩).1 = .ok ()
    ∧ (scheduledTasks (pr_open_or_push ctx [] ⟨tl, n, []⟩).2).map Task.metadata_name
        = ["detekt", "ktlint", "compare-locales", "lint"]
    ∧ (master_push ctx [] ⟨tl, n, []⟩).1 = .ok ()
    ∧ (depSignBodies (master_push ctx [] ⟨tl, n, []⟩).2).map Task.dependencies
        = [[ctx.TASK_ID, none, none]] :=
  ⟨rfl, rfl, rfl, rfl⟩

/-! ### String-suffix lemmas for C6 -/

theorem startsWithL_nil (s : List Char) : startsWithL s [] = true := by
  cases s <;> rfl

theorem startsWithL_refl (s : List Char) : startsWithL s s = true := by
  induction s with
  | nil => rfl
  | cons c cs ih => simp [startsWithL, ih]

theorem startsWithL_append_left (p r q : List Char) (h : startsWithL p q = true) :
    startsWithL (p ++ r) q = true := by
  induction q generalizing p with
  | nil => exact startsWithL_nil _
  | cons qc qs ih =>
      cases p with
      | nil => simp [startsWithL] at h
      | cons pc ps =>
          simp only [startsWithL, Bool.and_eq_true] at h
          simp only [List.cons_append, startsWithL, Bool.and_eq_true]
          exact ⟨h.1, ih ps h.2⟩

theorem endsWithL_append_of (x y suf : List Char) (h : endsWithL y suf = true) :
    endsWithL (x ++ y) suf = true := by
  unfold endsWithL at h ⊢
  rw [List.reverse_append]
  exact startsWithL_append_left _ _ _ h

theorem endsWithL_append_self (x y : List Char) : endsWithL (x ++ y) y = true := by
  apply endsWithL_append_of
  unfold endsWithL
  exact startsWithL_refl _

/-- No list ending in `-debug.apk` ends in `-unsigned.apk`: the two
closed suffixes disagree within their common last ten characters. -/
theorem not_endsWith_unsigned_of_debug (y : List Char) :
    endsWithL (y ++ ("-debug.apk").data) ("-unsigned.apk").data = false := by
  unfold endsWithL
  rw [List.reverse_append]
  rfl

theorem str_data_append (s t : String) : (s ++ t).data = s.data ++ t.data := rfl

/-- The classifier only ever returns the three architecture constants and
the two build-type constants. -/
theorem classify_ok_cases (v a bt : String)
    (h : _get_architecture_and_build_type_from_variant v = .ok (a, bt)) :
    (a = "aarch64" ∨ a = "x86" ∨ a = "arm") ∧ (bt = "debug" ∨ bt = "release") := by
  unfold _get_architecture_and_build_type_from_variant at h
  cases hA : pyContains (pyLower v) "aarch64" <;>
    cases hX : pyContains (pyLower v) "x86" <;>
      cases hR : pyContains (pyLower v) "arm" <;>
        cases hD : pyEndsWith (pyLower v) "debug" <;>
          cases hRel : pyEndsWith (pyLower v) "release" <;>
            simp_all

/-- The apk path determined by a successful classification. -/
theorem craft_eq (v a bt : String)
    (h : _get_architecture_and_build_type_from_variant v = .ok (a, bt)) :
    _craft_apk_full_path_from_variant v
      = .ok ("/build/reference-browser/app/build/outputs/apk/"
          ++ strTake v (strLen v - strLen bt) ++ "/" ++ bt ++ "/app-"
          ++ strTake (strTake v (strLen v - strLen bt))
              (strLen (strTake v (strLen v - strLen bt)) - strLen a)
          ++ "-" ++ a ++ "-" ++ bt
          ++ (if bt = "release" then "-unsigned" else "") ++ ".apk") := by
  unfold _craft_apk_full_path_from_variant
  rw [h]

/-! ### C6 -/

/-- C6 counterexample: `arm-unsignedDebug` is a valid variant (classified
as `arm`/`debug`), yet its derived apk path contains `-unsigned` — the
token itself carries the marker into the directory part — refuting "for
every debug variant the path never contains `-unsigned`". -/
theorem claim_C6_counterexample :
    _get_architecture_and_build_type_from_variant "arm-unsignedDebug"
      = .ok ("arm", "debug")
    ∧ _craft_apk_full_path_from_variant "arm-unsignedDebug"
      = .ok "/build/reference-browser/app/build/outputs/apk/arm-unsigned/debug/app-arm-unsig-arm-debug.apk"
    ∧ pyContains
        "/build/reference-browser/app/build/outputs/apk/arm-unsigned/debug/app-arm-unsig-arm-debug.apk"
        "-unsigned" = true := by
  refine ⟨by decide, by decide, by decide⟩

/-- C6 corrected: the filename carries the `-unsigned` marker before
`.apk` exactly for release variants — the path ends in `-unsigned.apk`
iff the build type is `release`, and a debug path never does — but a
debug path may still contain `-unsigned` elsewhere when the token itself
contains it (see the counterexample). -/
theorem claim_C6_unsigned_suffix_iff_release (v a bt p : String)
    (h : _get_architecture_and_build_type_from_variant v = .ok (a, bt))
    (hp : _craft_apk_full_path_from_variant v = .ok p) :
    pyEndsWith p "-unsigned.apk" = true ↔ bt = "release" := by
  rw [craft_eq v a bt h] at hp
  have hbt := (classify_ok_cases v a bt h).2
  injection hp with hp
  subst hp
  rcases hbt with hbt | hbt <;> subst hbt
  · -- debug: the path ends in "-debug.apk", never in "-unsigned.apk"
    rw [if_neg (by decide : ¬("debug" : String) = "release")]
    constructor
    · intro hends
      exfalso
      unfold pyEndsWith at hends
      have htail : ("-" : String).data ++ (("debug" : String).data
          ++ (("" : String).data ++ ((".apk" : String).data)))
          = ("-debug.apk" : String).data := by decide
      simp only [str_data_append, List.append_assoc] at hends
      rw [htail] at hends
      simp only [← List.append_assoc] at hends
      rw [not_endsWith_unsigned_of_debug] at hends
      exact Bool.false_ne_true hends
    · intro hrel
      exact absurd hrel (by decide)
  · -- release: the path ends in "-unsigned.apk"
    rw [if_pos (rfl : ("release" : String) = "release")]
    constructor
    · intro _; rfl
    · intro _
      unfold pyEndsWith
      have htail : ("-unsigned" : String).data ++ (".apk" : String).data
          = ("-unsigned.apk" : String).data := by decide
      simp only [str_data_append, List.append_assoc]
      rw [htail]
      simp only [← List.append_assoc]
      exact endsWithL_append_self _ _

/-- C6 witness: the amended theorem applied to the release variant
`armRelease` and the debug variant `armDebug`. -/
theorem claim_C6_unsigned_suffix_iff_release_witness :
    (pyEndsWith
        "/build/reference-browser/app/build/outputs/apk/arm/release/app--arm-release-unsigned.apk"
        "-unsigned.apk" = true ↔ ("release" : String) = "release")
    ∧ (pyEndsWith
        "/build/reference-browser/app/build/outputs/apk/arm/debug/app--arm-debug.apk"
        "-unsigned.apk" = true ↔ ("debug" : String) = "release") :=
  ⟨claim_C6_unsigned_suffix_iff_release "armRelease" "arm" "release"
      "/build/reference-browser/app/build/outputs/apk/arm/release/app--arm-release-unsigned.apk"
      (by decide) (by decide),
   claim_C6_unsigned_suffix_iff_release "armDebug" "arm" "debug"
      "/build/reference-browser/app/build/outputs/apk/arm/debug/app--arm-debug.apk"
      (by decide) (by decide)⟩

/-! ### C3 -/

theorem classify_good (v a b : String)
    (ha : specFoundArchs (pyLower v) = [a])
    (hb : specBuildType (pyLower v) = some b) :
    _get_architecture_and_build_type_from_variant v = .ok (a, b) := by
  unfold specFoundArchs at ha
  unfold specBuildType at hb
  unfold _get_architecture_and_build_type_from_variant
  cases hA : pyContains (pyLower v) "aarch64" <;>
    cases hX : pyContains (pyLower v) "x86" <;>
      cases hR : pyContains (pyLower v) "arm" <;>
        cases hD : pyEndsWith (pyLower v) "debug" <;>
          cases hRel : pyEndsWith (pyLower v) "release" <;>
            simp_all

theorem classify_bad (v : String)
    (h : specFoundArchs (pyLower v) = [] ∨ specBuildType (pyLower v) = none) :
    _get_architecture_and_build_type_from_variant v
      = .error ⟨pyLower v, specPriorityArch (pyLower v),
          specBuildType (pyLower v)⟩ := by
  unfold specFoundArchs specBuildType at h
  unfold _get_architecture_and_build_type_from_variant specPriorityArch specBuildType
  cases hA : pyContains (pyLower v) "aarch64" <;>
    cases hX : pyContains (pyLower v) "x86" <;>
      cases hR : pyContains (pyLower v) "arm" <;>
        cases hD : pyEndsWith (pyLower v) "debug" <;>
          cases hRel : pyEndsWith (pyLower v) "release" <;>
            simp_all

/-- C3: on any token whose lowered form contains exactly one recognized
architecture substring and ends in a build-type marker, the classifier
returns exactly that pair (so a token such as `geckoNightlyAarch64Release`
resolves to aarch64, not arm); on any token missing either attribute it
raises a `ValueError` whose message is formatted from the lowered
offending token and the scan results (what was / was not found). -/
theorem claim_C3_classify (v : String) :
    (∀ a b, specFoundArchs (pyLower v) = [a]
      → specBuildType (pyLower v) = some b
      → _get_architecture_and_build_type_from_variant v = .ok (a, b))
    ∧ (specFoundArchs (pyLower v) = [] ∨ specBuildType (pyLower v) = none
      → _get_architecture_and_build_type_from_variant v
          = .error ⟨pyLower v, specPriorityArch (pyLower v),
              specBuildType (pyLower v)⟩) :=
  ⟨fun a b ha hb => classify_good v a b ha hb, fun h => classify_bad v h⟩

/-- C3 witness: the good case at `geckoNightlyAarch64Release` (the
claim's own priority example) and the error case at `x86Blah`. -/
theorem claim_C3_classify_witness :
    _get_architecture_and_build_type_from_variant "geckoNightlyAarch64Release"
      = .ok ("aarch64", "release")
    ∧ _get_architecture_and_build_type_from_variant "x86Blah"
      = .error ⟨"x86blah", some "x86", none⟩ :=
  ⟨(claim_C3_classify "geckoNightlyAarch64Release").1 "aarch64" "release"
      (by decide) (by decide),
   by
    have h := (claim_C3_classify "x86Blah").2 (Or.inr (by decide))
    rw [h]
    decide⟩

/-! ### C5 -/

set_option maxHeartbeats 1600000 in
/-- C5: in a staging nightly run the three scheduled tasks are build,
signing and push; the signing task's scopes select the `dep-signing`
certificate, and no scheduled task carries the production Google Play
publish scope (the staging push scope is the distinct `:dep` one). In a
production nightly run the signing task selects `release-signing` and
the push task carries the production Google Play publish scope. -/
theorem claim_C5_nightly_scopes (ctx : Ctx) (date : Date) (tl : Nat → Nat)
    (n : Nat) :
    ((scheduledTasks (nightly ctx date true ⟨tl, n, []⟩).2).map Task.metadata_name
        = ["(Reference Browser) Build task", "(Reference Browser) Signing task",
           "(Reference Browser) Push task"]
      ∧ (scheduledTasks (nightly ctx date true ⟨tl, n, []⟩).2).map Task.scopes
        = [["secrets:get:project/mobile/reference-browser/sentry"],
           ["project:mobile:reference-browser:releng:signing:cert:dep-signing",
            "project:mobile:reference-browser:releng:signing:format:autograph_apk_reference_browser"],
           ["project:mobile:reference-browser:releng:googleplay:product:reference-browser:dep"]]
      ∧ ((scheduledTasks (nightly ctx date true ⟨tl, n, []⟩).2).all fun t =>
          !(t.scopes.contains
            "project:mobile:reference-browser:releng:googleplay:product:reference-browser"))
        = true)
    ∧ ((scheduledTasks (nightly ctx date false ⟨tl, n, []⟩).2).map Task.metadata_name
        = ["(Reference Browser) Build task", "(Reference Browser) Signing task",
           "(Reference Browser) Push task",
           "(RB for Android) Upload Debug APK to Nimbledroid"]
      ∧ (scheduledTasks (nightly ctx date false ⟨tl, n, []⟩).2).map Task.scopes
        = [["secrets:get:project/mobile/reference-browser/sentry"],
           ["project:mobile:reference-browser:releng:signing:cert:release-signing",
            "project:mobile:reference-browser:releng:signing:format:autograph_apk_reference_browser"],
           ["project:mobile:reference-browser:releng:googleplay:product:reference-browser"],
           ["secrets:get:project/mobile/reference-browser/nimbledroid"]]) :=
  ⟨⟨rfl, rfl, rfl⟩, rfl, rfl⟩

/-! ### Loop lemmas for the branch-push policy -/

theorem depSignBodies_eq (w : World) :
    depSignBodies w = (bodiesOf w.trace).filter isDepSignName := rfl

theorem bodiesOf_append (a b : List Effect) :
    bodiesOf (a ++ b) = bodiesOf a ++ bodiesOf b :=
  List.filterMap_append a b _

theorem test_name_ne_depsign (v : String) :
    (("test: " ++ v) == ("dep-sign" : String)) = false := rfl

theorem assemble_name_ne_depsign (v : String) :
    (("assemble: " ++ v) == ("dep-sign" : String)) = false := rfl

theorem craft_eq_apkPath (v a0 b0 : String)
    (h : _get_architecture_and_build_type_from_variant v = .ok (a0, b0)) :
    _craft_apk_full_path_from_variant v = .ok (apkPath v a0 b0) :=
  craft_eq v a0 b0 h

theorem create_variant_test_task_of_ok (ctx : Ctx) (v a0 b0 : String)
    (hc : _get_architecture_and_build_type_from_variant v = .ok (a0, b0))
    (w : World) :
    create_variant_test_task ctx v w
      = (.ok (testTaskOf ctx v a0 b0 w).1, (testTaskOf ctx v a0 b0 w).2) := by
  unfold create_variant_test_task _craft_treeherder_platform_from_variant
  rw [hc]
  rfl

theorem create_variant_test_task_of_err (ctx : Ctx) (v : String)
    (e : VariantError)
    (hc : _get_architecture_and_build_type_from_variant v = .error e)
    (w : World) :
    create_variant_test_task ctx v w = (.error e, w) := by
  unfold create_variant_test_task _craft_treeherder_platform_from_variant
  rw [hc]

theorem create_variant_assemble_task_of_ok (ctx : Ctx) (v a0 b0 : String)
    (hc : _get_architecture_and_build_type_from_variant v = .ok (a0, b0))
    (w : World) :
    create_variant_assemble_task ctx v w
      = (.ok (assembleTaskOf ctx v a0 b0 w).1, (assembleTaskOf ctx v a0 b0 w).2) := by
  unfold create_variant_assemble_task _craft_treeherder_platform_from_variant
    _craft_artifacts_from_variant
  rw [hc, craft_eq_apkPath v a0 b0 hc]
  rfl

theorem variantMatches_of_ok (v a0 b0 arch bt : String)
    (hc : _get_architecture_and_build_type_from_variant v = .ok (a0, b0)) :
    variantMatches v arch bt = (b0 == bt && a0 == arch) := by
  unfold variantMatches
  rw [hc]

theorem updArm_cons (ctx : Ctx) (v : String) (rest : List String)
    (armId : Option String) :
    updArm ctx (v :: rest) armId
      = updArm ctx rest
          (if variantMatches v "arm" "debug" then some ctx.default_task_id
           else armId) := by
  unfold updArm
  cases hv : variantMatches v "arm" "debug" <;>
    cases hr : rest.any fun x => variantMatches x "arm" "debug" <;>
      simp [List.any_cons, hv, hr]

theorem updA64_cons (ctx : Ctx) (v : String) (rest : List String)
    (a64Id : Option String) :
    updA64 ctx (v :: rest) a64Id
      = updA64 ctx rest
          (if variantMatches v "aarch64" "debug" then some ctx.default_task_id
           else a64Id) := by
  unfold updA64
  cases hv : variantMatches v "aarch64" "debug" <;>
    cases hr : rest.any fun x => variantMatches x "aarch64" "debug" <;>
      simp [List.any_cons, hv, hr]

/-- An unparseable variant aborts the loop before scheduling anything for
it: the error escapes with the state unchanged. -/
theorem processVariants_step_err (ctx : Ctx) (v : String) (rest : List String)
    (e : VariantError)
    (hc : _get_architecture_and_build_type_from_variant v = .error e)
    (armId a64Id : Option String) (g : TaskGraphS) (w : World) :
    processVariants ctx (v :: rest) armId a64Id g w = (.error e, w) := by
  unfold processVariants
  rw [create_variant_test_task_of_err ctx v e hc w]

/-- One loop iteration over a valid variant recurses with the arm/aarch64
accumulators updated from the classification; the scheduled assemble id
is always the module default. -/
theorem processVariants_cons_ok (ctx : Ctx) (v : String) (rest : List String)
    (a0 b0 : String)
    (hc : _get_architecture_and_build_type_from_variant v = .ok (a0, b0))
    (armId a64Id : Option String) (g : TaskGraphS) (w : World) :
    processVariants ctx (v :: rest) armId a64Id g w
      = processVariants ctx rest
          (if b0 = "debug" ∧ a0 = "arm" then some ctx.default_task_id else armId)
          (if b0 = "debug" ∧ a0 = "aarch64" then some ctx.default_task_id else a64Id)
          (stepGraph ctx g) (stepWorld ctx v a0 b0 w) := by
  conv_lhs => unfold processVariants
  simp only [create_variant_test_task_of_ok ctx v a0 b0 hc,
    schedule_new_task, schedule_task, emit]
  simp only [create_variant_assemble_task_of_ok ctx v a0 b0 hc,
    schedule_new_task, schedule_task, emit, hc]
  rfl

/-- One loop iteration schedules only a test body and an assemble body,
so the dep-sign projection of the trace is untouched. -/
theorem stepWorld_filter (ctx : Ctx) (v a0 b0 : String) (w : World) :
    (bodiesOf (stepWorld ctx v a0 b0 w).trace).filter isDepSignName
      = (bodiesOf w.trace).filter isDepSignName := by
  unfold stepWorld afterTestWorld
  simp only [List.append_assoc, List.cons_append, List.nil_append,
    bodiesOf_append, List.filter_append]
  simp [bodiesOf, isDepSignName, testTaskOf, assembleTaskOf, create_task,
    create_in_repo_task, create_raw_task, readClock,
    test_name_ne_depsign, assemble_name_ne_depsign]

/-- Across the whole loop the dep-sign projection of the trace is
untouched (this holds on error runs too: the error escapes with the
state of the failing iteration's start). -/
theorem processVariants_filter (ctx : Ctx) (vs : List String) :
    ∀ (armId a64Id : Option String) (g : TaskGraphS) (w : World),
      (bodiesOf ((processVariants ctx vs armId a64Id g w).2).trace).filter
          isDepSignName
        = (bodiesOf w.trace).filter isDepSignName := by
  induction vs with
  | nil => intro armId a64Id g w; rfl
  | cons v rest ih =>
      intro armId a64Id g w
      cases hcl : _get_architecture_and_build_type_from_variant v with
      | error e =>
          rw [processVariants_step_err ctx v rest e hcl armId a64Id g w]
      | ok p =>
          obtain ⟨a0, b0⟩ := p
          rw [processVariants_cons_ok ctx v rest a0 b0 hcl armId a64Id g w,
            ih, stepWorld_filter]

/-- On an all-valid variant list the loop succeeds and leaves exactly the
`updArm`/`updA64` accumulator values. -/
theorem processVariants_result (ctx : Ctx) (vs : List String) :
    ∀ (armId a64Id : Option String) (g : TaskGraphS) (w : World),
      (∀ v ∈ vs, ∃ a b,
        _get_architecture_and_build_type_from_variant v = .ok (a, b)) →
      ∃ g' w',
        processVariants ctx vs armId a64Id g w
          = (.ok (updArm ctx vs armId, updA64 ctx vs a64Id, g'), w') := by
  induction vs with
  | nil => intro armId a64Id g w _; exact ⟨g, w, rfl⟩
  | cons v rest ih =>
      intro armId a64Id g w hval
      obtain ⟨a0, b0, hc⟩ := hval v (List.mem_cons_self v rest)
      obtain ⟨g', w', heq⟩ := ih
        (if b0 = "debug" ∧ a0 = "arm" then some ctx.default_task_id else armId)
        (if b0 = "debug" ∧ a0 = "aarch64" then some ctx.default_task_id else a64Id)
        (stepGraph ctx g) (stepWorld ctx v a0 b0 w)
        (fun x hx => hval x (List.mem_cons_of_mem _ hx))
      refine ⟨g', w', ?_⟩
      rw [processVariants_cons_ok ctx v rest a0 b0 hc armId a64Id g w, heq,
        updArm_cons, updA64_cons,
        variantMatches_of_ok v a0 b0 "arm" "debug" hc,
        variantMatches_of_ok v a0 b0 "aarch64" "debug" hc]
      by_cases hb : b0 = "debug" <;> by_cases ha : a0 = "arm" <;>
        by_cases h64 : a0 = "aarch64" <;>
          simp_all [beq_iff_eq]

set_option maxHeartbeats 1600000 in
/-- On an all-valid variant list, `master_push` completes normally and
schedules exactly one dep-sign descriptor, whose dependency list is the
run's task-group id followed by the after-loop arm/aarch64 accumulators,
which are also its upstream-artifact task ids. -/
theorem master_push_post (ctx : Ctx) (vs : List String) (tl : Nat → Nat) (n : Nat)
    (hval : ∀ v ∈ vs, ∃ a b,
      _get_architecture_and_build_type_from_variant v = .ok (a, b)) :
    (master_push ctx vs ⟨tl, n, []⟩).1 = .ok ()
    ∧ (depSignBodies (master_push ctx vs ⟨tl, n, []⟩).2).map Task.dependencies
        = [[ctx.TASK_ID, updArm ctx vs none, updA64 ctx vs none]]
    ∧ (depSignBodies (master_push ctx vs ⟨tl, n, []⟩).2).map
          (fun t => upstreamTaskIds t.payload)
        = [[updArm ctx vs none, updA64 ctx vs none]] := by
  obtain ⟨g', w', heq⟩ := processVariants_result ctx vs none none
    (masterPushPrelude ctx ⟨tl, n, []⟩).1 (masterPushPrelude ctx ⟨tl, n, []⟩).2 hval
  have hfil := processVariants_filter ctx vs none none
    (masterPushPrelude ctx ⟨tl, n, []⟩).1 (masterPushPrelude ctx ⟨tl, n, []⟩).2
  rw [heq] at hfil
  have hpre : (bodiesOf ((masterPushPrelude ctx ⟨tl, n, []⟩).2).trace).filter
      isDepSignName = [] := rfl
  rw [hpre] at hfil
  unfold master_push
  rw [heq]
  unfold masterPushFinish
  refine ⟨rfl, ?_, ?_⟩ <;>
  · simp only [depSignBodies_eq]
    simp only [create_dep_signing_task, create_raw_task, readClock,
      schedule_new_task, schedule_task, emit,
      populate_chain_of_trust_required_but_unused_files, get_raw_graph]
    simp only [List.append_assoc, List.cons_append, List.nil_append,
      bodiesOf_append, List.filter_append, hfil]
    simp [bodiesOf, isDepSignName, upstreamTaskIds]

/-- No variant classifies as arm-debug and aarch64-debug at once. -/
theorem variantMatches_not_both (v : String) :
    ¬(variantMatches v "arm" "debug" = true
      ∧ variantMatches v "aarch64" "debug" = true) := by
  unfold variantMatches
  cases hc : _get_architecture_and_build_type_from_variant v with
  | error e => simp
  | ok p =>
      obtain ⟨a, b⟩ := p
      simp only [Bool.and_eq_true, beq_iff_eq]
      rintro ⟨⟨hb1, ha1⟩, hb2, ha2⟩
      rw [ha1] at ha2
      exact absurd ha2 (by decide)

theorem countP_or_disjoint {α : Type} (l : List α) (p q : α → Bool)
    (hd : ∀ x, ¬(p x = true ∧ q x = true)) :
    (l.countP fun x => p x || q x) = l.countP p + l.countP q := by
  induction l with
  | nil => rfl
  | cons a t ih =>
      by_cases hp : p a = true <;> by_cases hq : q a = true
      · exact absurd ⟨hp, hq⟩ (hd a)
      all_goals
        simp only [List.countP_cons, hp, hq, ih,
          Bool.or_true, Bool.true_or, Bool.or_false, Bool.false_or,
          Bool.not_eq_true] at *
      all_goals simp_all
      all_goals omega

theorem map_const_pair {α β : Type} (l : List α) (c : β) (h : l.length = 2) :
    l.map (fun _ => c) = [c, c] := by
  match l with
  | [] => simp at h
  | [a] => simp at h
  | a :: b :: t =>
      simp only [List.length_cons] at h
      have ht : t = [] := List.eq_nil_of_length_eq_zero (by omega)
      subst ht
      rfl

/-! ### C4 -/

/-- C4: with exactly one arm-debug and one aarch64-debug variant among an
all-valid discovered list, `master_push` completes and schedules exactly
one dep-signing descriptor; its dependency list is the task-group id
followed by the two remembered assemble ids, which are also its
upstream-artifact ids and equal, entry by entry, the assemble ids of the
two selected variants in variant-processing order. (Because the import-
time default slug is the id of every scheduled task, all these ids are
`ctx.default_task_id`; see C1.) -/
theorem claim_C4_master_push_dep_signing (ctx : Ctx) (vs : List String)
    (tl : Nat → Nat) (n : Nat)
    (hval : ∀ v ∈ vs, ∃ a b,
      _get_architecture_and_build_type_from_variant v = .ok (a, b))
    (hArm : (vs.countP fun v => variantMatches v "arm" "debug") = 1)
    (hA64 : (vs.countP fun v => variantMatches v "aarch64" "debug") = 1) :
    (master_push ctx vs ⟨tl, n, []⟩).1 = .ok ()
    ∧ (depSignBodies (master_push ctx vs ⟨tl, n, []⟩).2).map Task.dependencies
        = [[ctx.TASK_ID, some ctx.default_task_id, some ctx.default_task_id]]
    ∧ (depSignBodies (master_push ctx vs ⟨tl, n, []⟩).2).map
          (fun t => upstreamTaskIds t.payload)
        = [[some ctx.default_task_id, some ctx.default_task_id]]
    ∧ (vs.filter fun v => variantMatches v "arm" "debug"
          || variantMatches v "aarch64" "debug").map
          (fun _ => (some ctx.default_task_id : Option String))
        = [some ctx.default_task_id, some ctx.default_task_id] := by
  have hanyArm : (vs.any fun v => variantMatches v "arm" "debug") = true := by
    rw [List.any_eq_true]
    exact List.countP_pos_iff.1 (by omega)
  have hanyA64 : (vs.any fun v => variantMatches v "aarch64" "debug") = true := by
    rw [List.any_eq_true]
    exact List.countP_pos_iff.1 (by omega)
  have hupdArm : updArm ctx vs none = some ctx.default_task_id := by
    simp [updArm, hanyArm]
  have hupdA64 : updA64 ctx vs none = some ctx.default_task_id := by
    simp [updA64, hanyA64]
  obtain ⟨h1, h2, h3⟩ := master_push_post ctx vs tl n hval
  rw [hupdArm, hupdA64] at h2 h3
  refine ⟨h1, h2, h3, ?_⟩
  have hlen : (vs.filter fun v => variantMatches v "arm" "debug"
      || variantMatches v "aarch64" "debug").length = 2 := by
    rw [← List.countP_eq_length_filter,
      countP_or_disjoint vs _ _ variantMatches_not_both, hArm, hA64]
  exact map_const_pair _ _ hlen

/-- C4 witness: the discovered list `armDebug, armRelease, aarch64Debug`
(the spec's own end-to-end scenario) under the concrete module constants
and the index clock. -/
theorem claim_C4_master_push_dep_signing_witness :
    (master_push ctx0 ["armDebug", "armRelease", "aarch64Debug"]
        ⟨fun i => i, 0, []⟩).1 = .ok ()
    ∧ (depSignBodies (master_push ctx0 ["armDebug", "armRelease", "aarch64Debug"]
          ⟨fun i => i, 0, []⟩).2).map Task.dependencies
        = [[some "GROUP", some "slug0", some "slug0"]]
    ∧ (depSignBodies (master_push ctx0 ["armDebug", "armRelease", "aarch64Debug"]
          ⟨fun i => i, 0, []⟩).2).map (fun t => upstreamTaskIds t.payload)
        = [[some "slug0", some "slug0"]]
    ∧ (["armDebug", "armRelease", "aarch64Debug"].filter fun v =>
          variantMatches v "arm" "debug" || variantMatches v "aarch64" "debug").map
          (fun _ => (some "slug0" : Option String))
        = [some "slug0", some "slug0"] := by
  have h := claim_C4_master_push_dep_signing ctx0
    ["armDebug", "armRelease", "aarch64Debug"] (fun i => i) 0
    (by
      intro v hv
      simp only [List.mem_cons, List.not_mem_nil, or_false] at hv
      rcases hv with rfl | rfl | rfl
      · exact ⟨"arm", "debug", by decide⟩
      · exact ⟨"arm", "release", by decide⟩
      · exact ⟨"aarch64", "debug", by decide⟩)
    (by decide) (by decide)
  exact h

/-! ### C10 -/

/-- C10: on an all-valid variant list lacking an arm-debug (respectively
aarch64-debug) variant, `master_push` raises no error — it still builds
and schedules the single dep-signing task, whose extra dependency list
and upstream-artifact task ids then carry `None` in the place of the
missing assemble id. -/
theorem claim_C10_missing_variant_none_deps (ctx : Ctx) (vs : List String)
    (tl : Nat → Nat) (n : Nat)
    (hval : ∀ v ∈ vs, ∃ a b,
      _get_architecture_and_build_type_from_variant v = .ok (a, b)) :
    ((vs.countP fun v => variantMatches v "arm" "debug") = 0 →
      (master_push ctx vs ⟨tl, n, []⟩).1 = .ok ()
      ∧ (depSignBodies (master_push ctx vs ⟨tl, n, []⟩).2).map Task.dependencies
          = [[ctx.TASK_ID, none, updA64 ctx vs none]]
      ∧ (depSignBodies (master_push ctx vs ⟨tl, n, []⟩).2).map
            (fun t => upstreamTaskIds t.payload)
          = [[none, updA64 ctx vs none]])
    ∧ ((vs.countP fun v => variantMatches v "aarch64" "debug") = 0 →
      (master_push ctx vs ⟨tl, n, []⟩).1 = .ok ()
      ∧ (depSignBodies (master_push ctx vs ⟨tl, n, []⟩).2).map Task.dependencies
          = [[ctx.TASK_ID, updArm ctx vs none, none]]
      ∧ (depSignBodies (master_push ctx vs ⟨tl, n, []⟩).2).map
            (fun t => upstreamTaskIds t.payload)
          = [[updArm ctx vs none, none]]) := by
  obtain ⟨h1, h2, h3⟩ := master_push_post ctx vs tl n hval
  constructor
  · intro hz
    have hany : (vs.any fun v => variantMatches v "arm" "debug") = false := by
      rw [List.any_eq_false]
      intro x hx
      exact List.countP_eq_zero.1 hz x hx
    have hupd : updArm ctx vs none = none := by simp [updArm, hany]
    rw [hupd] at h2 h3
    exact ⟨h1, h2, h3⟩
  · intro hz
    have hany : (vs.any fun v => variantMatches v "aarch64" "debug") = false := by
      rw [List.any_eq_false]
      intro x hx
      exact List.countP_eq_zero.1 hz x hx
    have hupd : updA64 ctx vs none = none := by simp [updA64, hany]
    rw [hupd] at h2 h3
    exact ⟨h1, h2, h3⟩

/-- C10 witness: the list `x86Debug, aarch64Debug` has no arm-debug
variant; the run still succeeds and the dep-signing task carries a
`None` dependency and upstream id in the arm slot. -/
theorem claim_C10_missing_variant_none_deps_witness :
    (master_push ctx0 ["x86Debug", "aarch64Debug"] ⟨fun i => i, 0, []⟩).1 = .ok ()
    ∧ (depSignBodies (master_push ctx0 ["x86Debug", "aarch64Debug"]
          ⟨fun i => i, 0, []⟩).2).map Task.dependencies
        = [[some "GROUP", none, some "slug0"]]
    ∧ (depSignBodies (master_push ctx0 ["x86Debug", "aarch64Debug"]
          ⟨fun i => i, 0, []⟩).2).map (fun t => upstreamTaskIds t.payload)
        = [[none, some "slug0"]] := by
  have h := (claim_C10_missing_variant_none_deps ctx0 ["x86Debug", "aarch64Debug"]
    (fun i => i) 0
    (by
      intro v hv
      simp only [List.mem_cons, List.not_mem_nil, or_false] at hv
      rcases hv with rfl | rfl
      · exact ⟨"x86", "debug", by decide⟩
      · exact ⟨"aarch64", "debug", by decide⟩)).1 (by decide)
  exact h

end RefBrowser
